import Mathlib

/-!
Verification of the claim-evaluation workflow of `llm-insight-eval`.

The development shallowly embeds the Python sources:
  * `src/models.py`     — `MetricEvaluation`, `EvaluationScores`, `DataAnalysisResult`,
                          `EvaluationState`;
  * `src/llm_client.py` — `_parse_evaluation_response`, `evaluate_metric`;
  * `src/e2b_client.py` — the attribute surface of `E2BClient`;
  * `src/graph.py`      — the four workflow nodes and `evaluate_claim`.

Python `dict`s are embedded as association lists in which a later binding for
a key shadows an earlier one; JSON values as an inductive type with rational
numbers; machine floats produced by the code (sums of small integers divided
by 5) are represented exactly as rationals; exceptions as `Except String`.
The language-model backend is an oracle parameter; where a claim is about the
number of backend calls, the oracle threads an explicit state so calls are
observable.
-/

set_option autoImplicit false

namespace InsightEval

/-! ### JSON values

Model of the Python/JSON data reachable in this code base.  Numbers are
rationals; `json.loads` produces Python `int`s on the inputs exercised here,
represented as rationals with denominator 1. -/

inductive Json where
  | null : Json
  | bool : Bool → Json
  | num : ℚ → Json
  | str : String → Json
  | arr : List Json → Json
  | obj : List (String × Json) → Json

/-- Python `dict` lookup on an association list: a later binding for the same
key shadows an earlier one (Python keeps the last assigned value). -/
def pyDictGet {α : Type} (d : List (String × α)) (k : String) : Option α :=
  match d with
  | [] => none
  | (k', v) :: rest =>
    match pyDictGet rest k with
    | some v' => some v'
    | none => if k' = k then some v else none

/-- Python `k in dict`. -/
def pyHasKey {α : Type} (d : List (String × α)) (k : String) : Bool :=
  (pyDictGet d k).isSome

/-! ### Characters and string scanning (`str.find` / `str.rfind`) -/

/-- The character `{` (written via its code point). -/
def lbrace : Char := Char.ofNat 123

/-- The character `}` (written via its code point). -/
def rbrace : Char := Char.ofNat 125

/-- Python `s.find(c)`: index of the first occurrence. -/
def strFind (cs : List Char) (c : Char) : Option Nat :=
  cs.findIdx? (· = c)

/-- Python `s.rfind(c)`: index of the last occurrence. -/
def strRfind (cs : List Char) (c : Char) : Option Nat :=
  (cs.reverse.findIdx? (· = c)).map (fun i => cs.length - 1 - i)

/-! ### A model of `json.loads`

`llm_client._parse_evaluation_response` feeds the brace-delimited span of the
judge response to `json.loads`.  The model below parses the JSON fragment
actually reachable there: objects, arrays, strings without escape sequences,
integer numerals, booleans and null, with whitespace tolerance.  Parsing is
fuelled; on every input appearing in a theorem the fuel is ample. -/

def isWsChar (c : Char) : Bool :=
  c = ' ' ∨ c = '\n' ∨ c = '\t' ∨ c = '\r'

def skipWs : List Char → List Char
  | [] => []
  | c :: cs => if isWsChar c then skipWs cs else c :: cs

/-- Parse a JSON string body after the opening quote (no escape handling;
no response in this development contains an escaped quote). -/
def parseStrBody : List Char → Option (String × List Char)
  | [] => none
  | c :: cs =>
    if c = '"' then some ("", cs)
    else (parseStrBody cs).map (fun p => (String.mk (c :: p.1.toList), p.2))

/-- Parse a run of decimal digits into a natural number. -/
def parseDigits : List Char → Option (Nat × List Char)
  | [] => none
  | c :: cs =>
    if c.isDigit then
      match parseDigits cs with
      | some (n, rest) =>
        some ((c.toNat - 48) * 10 ^ (cs.length - rest.length) + n, rest)
      | none => some (c.toNat - 48, cs)
    else none

/-- Parse an (optionally negated) integer numeral. -/
def parseIntLit (cs : List Char) : Option (Int × List Char) :=
  match cs with
  | '-' :: rest => (parseDigits rest).map (fun p => (-(p.1 : Int), p.2))
  | _ => (parseDigits cs).map (fun p => ((p.1 : Int), p.2))

/-- Check that `pre` is a prefix of `cs`; return the remainder. -/
def dropLit : List Char → List Char → Option (List Char)
  | [], cs => some cs
  | _, [] => none
  | p :: ps, c :: cs => if p = c then dropLit ps cs else none

mutual

def parseValue : Nat → List Char → Option (Json × List Char)
  | 0, _ => none
  | fuel + 1, cs =>
    match skipWs cs with
    | [] => none
    | c :: rest =>
      if c = '"' then
        (parseStrBody rest).map (fun p => (Json.str p.1, p.2))
      else if c = lbrace then
        match skipWs rest with
        | c' :: rest' =>
          if c' = rbrace then some (Json.obj [], rest')
          else parseMembers fuel (c' :: rest') []
        | [] => none
      else if c = '[' then
        match skipWs rest with
        | c' :: rest' =>
          if c' = ']' then some (Json.arr [], rest')
          else parseItems fuel (c' :: rest') []
        | [] => none
      else if c = 't' then
        (dropLit ['r', 'u', 'e'] rest).map (fun r => (Json.bool true, r))
      else if c = 'f' then
        (dropLit ['a', 'l', 's', 'e'] rest).map (fun r => (Json.bool false, r))
      else if c = 'n' then
        (dropLit ['u', 'l', 'l'] rest).map (fun r => (Json.null, r))
      else
        (parseIntLit (c :: rest)).map (fun p => (Json.num (p.1 : ℚ), p.2))

/-- Parse `"key": value` pairs separated by commas, until `}`. -/
def parseMembers : Nat → List Char → List (String × Json) →
    Option (Json × List Char)
  | 0, _, _ => none
  | fuel + 1, cs, acc =>
    match skipWs cs with
    | '"' :: rest =>
      match parseStrBody rest with
      | some (key, afterKey) =>
        match skipWs afterKey with
        | ':' :: afterColon =>
          match parseValue fuel afterColon with
          | some (v, afterVal) =>
            match skipWs afterVal with
            | ',' :: more => parseMembers fuel more (acc ++ [(key, v)])
            | c :: more =>
              if c = rbrace then some (Json.obj (acc ++ [(key, v)]), more)
              else none
            | [] => none
          | none => none
        | _ => none
      | none => none
    | _ => none

/-- Parse array items separated by commas, until `]`. -/
def parseItems : Nat → List Char → List Json → Option (Json × List Char)
  | 0, _, _ => none
  | fuel + 1, cs, acc =>
    match parseValue fuel cs with
    | some (v, afterVal) =>
      match skipWs afterVal with
      | ',' :: more => parseItems fuel more (acc ++ [v])
      | ']' :: more => some (Json.arr (acc ++ [v]), more)
      | _ => none
    | none => none

end

/-- Model of strict `json.loads`: the whole input must be consumed up to
trailing whitespace (Python raises `Extra data` otherwise). -/
def json_loads (cs : List Char) : Option Json :=
  match parseValue (cs.length + 1) cs with
  | some (v, rest) => if skipWs rest = [] then some v else none
  | none => none

/-! ### `models.MetricEvaluation` (src/models.py, lines 17–22)

pydantic enforces `score: int, ge=1, le=5` at construction time: a
`MetricEvaluation` value with an out-of-range score cannot exist, so the
bounds are carried as fields of the structure.  `metadata` only ever holds
string values in this code base (`metric`, `raw_response`, `error`). -/

structure MetricEvaluation where
  score : ℤ
  rationale : String
  confidence : Option ℚ
  metadata : List (String × String)
  score_ge_one : 1 ≤ score
  score_le_five : score ≤ 5

/-- pydantic's lenient validation of an `int` field applied to a decoded JSON
value: integers pass, strings holding an integer literal are coerced to that
integer; other shapes are rejected (theorems only exercise the integer and
integer-string cases, on which pydantic v1 and v2 agree). -/
def laxInt : Json → Option ℤ
  | Json.num q => if q.den = 1 then some q.num else none
  | Json.str s =>
    match parseIntLit s.toList with
    | some (n, []) => some n
    | _ => none
  | _ => none

/-- pydantic's validation of a `str` field: only strings pass (the only case
theorems exercise). -/
def laxStr : Json → Option String
  | Json.str s => some s
  | _ => none

/-- pydantic's validation of the `Optional[float] ge=0 le=1` field
`confidence`: absent or null gives `None`; a number must lie in `[0, 1]`. -/
def validateConfidence : Option Json → Option (Option ℚ)
  | none => some none
  | some Json.null => some none
  | some (Json.num q) => if 0 ≤ q ∧ q ≤ 1 then some (some q) else none
  | some _ => none

/-- Modelled text of the pydantic `ValidationError` raised when `score`
exceeds the upper bound (the exact backend text is library-generated). -/
def scoreLeErrMsg : String :=
  "1 validation error for MetricEvaluation: score must be less than or equal to 5"

/-- Modelled text of the `ValidationError` for a score below the lower bound. -/
def scoreGeErrMsg : String :=
  "1 validation error for MetricEvaluation: score must be greater than or equal to 1"

/-- Modelled text of the `ValidationError` for a score of the wrong type. -/
def scoreTypeErrMsg : String :=
  "1 validation error for MetricEvaluation: score is not a valid integer"

/-- Modelled text of the `ValidationError` for a rationale of the wrong type. -/
def rationaleTypeErrMsg : String :=
  "1 validation error for MetricEvaluation: rationale is not a valid string"

/-- Modelled text of the `ValidationError` for an invalid confidence. -/
def confidenceErrMsg : String :=
  "1 validation error for MetricEvaluation: confidence is not valid"

/-- `MetricEvaluation(score=..., rationale=..., confidence=..., metadata=...)`:
pydantic validates the fields and raises `ValidationError` on failure. -/
def pydanticBuild (scoreJ rationaleJ : Json) (confJ : Option Json)
    (md : List (String × String)) : Except String MetricEvaluation :=
  match laxInt scoreJ with
  | none => Except.error scoreTypeErrMsg
  | some s =>
    if h1 : 1 ≤ s then
      if h2 : s ≤ 5 then
        match laxStr rationaleJ with
        | none => Except.error rationaleTypeErrMsg
        | some r =>
          match validateConfidence confJ with
          | none => Except.error confidenceErrMsg
          | some conf => Except.ok ⟨s, r, conf, md, h1, h2⟩
      else Except.error scoreLeErrMsg
    else Except.error scoreGeErrMsg

/-! ### `llm_client._parse_evaluation_response` (src/llm_client.py, lines 153–178) -/

/-- `str(ValueError("No JSON found in response"))`. -/
def noJsonFoundMsg : String := "No JSON found in response"

/-- `str(ValueError("Missing required fields in response"))`. -/
def missingFieldsMsg : String := "Missing required fields in response"

/-- Modelled text of `str(json.JSONDecodeError)` for a malformed span (the
exact backend text includes a position and is library-generated). -/
def jsonDecodeErrMsg : String := "Expecting value in JSON document"

/-- The default dict the parser returns when any step fails:
`{"score": 1, "rationale": f"Error parsing response: {e}"}`. -/
def parseFallbackDict (e : String) : List (String × Json) :=
  [("score", Json.num 1), ("rationale", Json.str ("Error parsing response: " ++ e))]

/-- `_parse_evaluation_response`: extract the span from the first `{` to the
last `}`, strictly JSON-decode it, and check the `score` and `rationale` keys
are present; on any failure return the default score-1 dict.  The function
never raises (it catches its own exceptions). -/
def parse_evaluation_response (response : String) : List (String × Json) :=
  let cs := response.toList
  if cs.contains lbrace ∧ cs.contains rbrace then
    match strFind cs lbrace, strRfind cs rbrace with
    | some start, some lastIdx =>
      let json_str := (cs.drop start).take (lastIdx + 1 - start)
      match json_loads json_str with
      | some (Json.obj parsed) =>
        if pyHasKey parsed "score" ∧ pyHasKey parsed "rationale" then parsed
        else parseFallbackDict missingFieldsMsg
      | _ => parseFallbackDict jsonDecodeErrMsg
    | _, _ => parseFallbackDict jsonDecodeErrMsg
  else parseFallbackDict noJsonFoundMsg

/-! ### `llm_client.evaluate_metric` (src/llm_client.py, lines 36–101)

The transport layer (`_get_llm_response`) either re-raises a transport error
or yields the raw response text; the argument `transport` models its outcome.
`evaluate_metric` parses the response, constructs a `MetricEvaluation`, and
converts any exception into the default score-1 evaluation. -/

/-- The `except` branch of `evaluate_metric`: a score-1 evaluation whose
rationale names the failure. -/
def evalMetricFallback (e : String) (metricName : String) : MetricEvaluation :=
  ⟨1, "Error during evaluation: " ++ e, none,
    [("error", e), ("metric", metricName)], le_refl 1, by norm_num⟩

def evaluate_metric (transport : Except String String) (metricName : String) :
    MetricEvaluation :=
  match transport with
  | Except.error e => evalMetricFallback e metricName
  | Except.ok response =>
    let parsed := parse_evaluation_response response
    match pydanticBuild ((pyDictGet parsed "score").getD Json.null)
        ((pyDictGet parsed "rationale").getD Json.null)
        (pyDictGet parsed "confidence")
        [("metric", metricName), ("raw_response", response)] with
    | Except.ok ev => ev
    | Except.error e => evalMetricFallback e metricName

/-! ### The prompt-construction step of `evaluate_metric`
(src/llm_client.py, lines 57–78; src/prompts/metrics.py)

Before any backend call, `evaluate_metric` looks up
`metric_prompts[metric_name]` and then calls
`prompt_template.format_messages(**context)`.  `prompts/metrics.py` builds
every template as a plain string `PromptTemplate`, which defines **no**
method `format_messages` (that method belongs to chat prompt templates), so
the call raises `AttributeError` before `_get_llm_response` is ever reached,
and the `except` branch of `evaluate_metric` converts it into the score-1
fallback.  (Independently, the helpfulness template declares an
`audience_description` input variable that `evaluate_metric` never supplies,
so even plain string formatting could not succeed for that metric.) -/

/-- The keys of the `metric_prompts` registry (prompts/metrics.py, lines
167–173). -/
def metric_prompts_keys : List String :=
  ["correctness", "helpfulness", "coherence", "complexity", "verbosity"]

/-- The attribute surface of langchain's string `PromptTemplate` relevant
here: it exposes `format`/`format_prompt`, but not `format_messages`. -/
def promptTemplate_attrs : List String :=
  ["input_variables", "template", "format", "format_prompt"]

/-- CPython's message for the failing attribute access at llm_client.py:75. -/
def formatMessagesErrMsg : String :=
  "'PromptTemplate' object has no attribute 'format_messages'"

/-- What one invocation of the scorer stores for a metric: the registry
lookup raises `KeyError` for an unknown metric name; for a known one,
`format_messages` raises `AttributeError` — either way the score-1 fallback,
never a judge verdict. -/
def scorerResult (metricName : String) : MetricEvaluation :=
  if metric_prompts_keys.contains metricName then
    evalMetricFallback formatMessagesErrMsg metricName
  else
    evalMetricFallback ("'" ++ metricName ++ "'") metricName

/-- `llm_client.evaluate_metric` in full, prompt step included.  `oracle`
models `_get_llm_response` over an observable backend state `σ`: one oracle
invocation is one language-model call.  The registry lookup can raise
`KeyError` (unknown metric); otherwise `format_messages` raises
`AttributeError` before the oracle is consulted — in both cases the backend
state comes back untouched with the score-1 fallback naming the failure. -/
def evaluate_metric_full {σ : Type}
    (oracle : String → σ → Except String String × σ)
    (metricName : String) (j : σ) : MetricEvaluation × σ :=
  if metric_prompts_keys.contains metricName then
    if promptTemplate_attrs.contains "format_messages" then
      let r := oracle metricName j
      (evaluate_metric r.1 metricName, r.2)
    else
      (evalMetricFallback formatMessagesErrMsg metricName, j)
  else
    (evalMetricFallback ("'" ++ metricName ++ "'") metricName, j)

/-! ### `models.EvaluationScores` and the remaining data model (src/models.py) -/

structure DataAnalysisResult where
  analysis_type : String
  results : List (String × Json)
  code_executed : Option String
  execution_time : ℚ
  success : Bool
  error_message : Option String

structure EvaluationScores where
  correctness : MetricEvaluation
  helpfulness : MetricEvaluation
  complexity : MetricEvaluation
  coherence : MetricEvaluation
  verbosity : MetricEvaluation

/-- `EvaluationScores.get_average_score`: the plain arithmetic mean of the
five scores (no rounding in the source). -/
def EvaluationScores.get_average_score (s : EvaluationScores) : ℚ :=
  ((s.correctness.score + s.helpfulness.score + s.complexity.score
    + s.coherence.score + s.verbosity.score : ℤ) : ℚ) / 5

/-- `EvaluationScores.to_dict`: the `scores`, `explanations` and
`average_score` entries spread into the final output dict. -/
def EvaluationScores.to_dict (s : EvaluationScores) : List (String × Json) :=
  [("scores", Json.obj
      [("correctness", Json.num (s.correctness.score : ℚ)),
       ("helpfulness", Json.num (s.helpfulness.score : ℚ)),
       ("complexity", Json.num (s.complexity.score : ℚ)),
       ("coherence", Json.num (s.coherence.score : ℚ)),
       ("verbosity", Json.num (s.verbosity.score : ℚ))]),
   ("explanations", Json.obj
      [("correctness", Json.str s.correctness.rationale),
       ("helpfulness", Json.str s.helpfulness.rationale),
       ("complexity", Json.str s.complexity.rationale),
       ("coherence", Json.str s.coherence.rationale),
       ("verbosity", Json.str s.verbosity.rationale)]),
   ("average_score", Json.num s.get_average_score)]

/-- `models.EvaluationState`: the mutable record threaded through the four
workflow nodes.  Wall-clock fields (`timestamp`, `execution_time`) are
opaque data in the embedding. -/
structure EvaluationState where
  claim : String
  dataset_summary : String
  task_description : Option String
  data_analysis_results : List DataAnalysisResult
  evaluation_scores : Option EvaluationScores
  final_output : Option (List (String × Json))
  timestamp : String
  execution_time : Option ℚ
  errors : List String

/-! ### `config.EvaluationConfig` (src/config.py, lines 29–37) -/

structure EvaluationConfig where
  metrics : List String
  parallel_evaluation : Bool

/-- The configured metric list (`config.py` default, also the exact keyword
order of the `EvaluationScores(...)` construction in `graph.py`). -/
def defaultMetrics : List String :=
  ["correctness", "helpfulness", "complexity", "coherence", "verbosity"]

def defaultEvaluationConfig : EvaluationConfig :=
  ⟨defaultMetrics, true⟩

/-! ### `graph._start_node` (src/graph.py, lines 44–63) -/

/-- `graph._get_default_dataset_summary` (src/graph.py, lines 221–233). -/
def get_default_dataset_summary : String :=
  "\nBig Mart Sales Dataset:\n- 8,523 records of retail sales data\n- Columns: Item_Identifier, Item_Weight, Item_Fat_Content, Item_Visibility, Item_Type, Item_MRP, Outlet_Identifier, Outlet_Establishment_Year, Outlet_Size, Outlet_Location_Type, Outlet_Type, Item_Outlet_Sales\n- Contains item details (weight, fat content, type, MRP) and outlet information (size, location, type, establishment year)\n- Target variable: Item_Outlet_Sales\n- Includes various product categories like Dairy, Soft Drinks, Meat, Fruits and Vegetables, etc.\n- Outlet types include Supermarket Type1/2/3 and Grocery Store\n- Location types: Tier 1, 2, 3\n- Establishment years range from 1985 to 2009\n"

/-- The error string appended when the start node's validation raises. -/
def startNodeErrMsg : String :=
  "Start node error: Claim and dataset summary are required"

/-- `_start_node`: raises `ValueError` when the claim **or** the dataset
summary is empty (caught by the node's own handler, which appends the error
and passes the state on unchanged); only then would it substitute the default
summary for an empty one — a branch the guard makes unreachable. -/
def start_node (s : EvaluationState) : EvaluationState :=
  if s.claim = "" ∨ s.dataset_summary = "" then
    { s with errors := s.errors ++ [startNodeErrMsg] }
  else if s.dataset_summary = "" then
    { s with dataset_summary := get_default_dataset_summary }
  else s

/-! ### `graph._data_analysis_node` (src/graph.py, lines 65–113)

The node's guard evaluates `self.e2b_client.tool`.  `E2BClient`
(src/e2b_client.py) defines exactly the instance attributes `api_key` and
`sandbox` and the methods `is_available`, `upload_dataset` and
`run_analysis`; it defines no attribute `tool`, so the guard itself raises
`AttributeError`, which the node's handler converts into one error string.
Neither the sandbox branch nor the LLM fallback branch is ever entered. -/

def e2bclient_attrs : List String :=
  ["api_key", "sandbox", "is_available", "upload_dataset", "run_analysis"]

/-- `f"Data analysis error: {str(e)}"` for the guard's `AttributeError`. -/
def dataAnalysisErrMsg : String :=
  "Data analysis error: 'E2BClient' object has no attribute 'tool'"

def data_analysis_node (s : EvaluationState) : EvaluationState :=
  if e2bclient_attrs.contains "tool" then
    -- Unreachable: `E2BClient` defines no attribute `tool`, so evaluating the
    -- guard raises before either the sandbox or the fallback branch can run.
    s
  else
    { s with errors := s.errors ++ [dataAnalysisErrMsg] }

/-! ### `graph._evaluate_metrics_node` (src/graph.py, lines 115–192)

The node awaits `llm_client.evaluate_metric` once per configured metric,
either gathering all awaitables (`parallel_evaluation=True`) or looping
(`False`).  The awaited task is modelled as
`task : String → σ → Except String MetricEvaluation × σ`: given the metric
name and a threaded state it delivers either the evaluation or a raised
fault.  Node-level statements quantify over arbitrary tasks, covering any
scorer behaviour; the task the shipped pipeline awaits is `scorerTask`
below, built from the full `evaluate_metric`, whose state advances only
when `_get_llm_response` is invoked — so there the state counts
language-model calls, not scorer invocations. -/

def MetricTask (σ : Type) : Type :=
  String → σ → Except String MetricEvaluation × σ

/-- The task `_evaluate_metrics_node` actually awaits: the full
`llm_client.evaluate_metric` (which never raises — it catches its own
exceptions) wrapped as a `MetricTask` over the backend state. -/
def scorerTask {σ : Type}
    (oracle : String → σ → Except String String × σ) : MetricTask σ :=
  fun m j =>
    let r := evaluate_metric_full oracle m j
    (Except.ok r.1, r.2)

/-- `graph._format_analysis_for_metrics` (src/graph.py, lines 235–244). -/
def format_analysis_for_metrics (rs : List DataAnalysisResult) : List Json :=
  rs.map (fun r => Json.obj
    [("analysis_type", Json.str r.analysis_type),
     ("results", Json.obj r.results),
     ("success", Json.bool r.success)])

/-- `asyncio.gather(*tasks, return_exceptions=True)`: one awaitable per
metric, outcomes collected in order. -/
def gatherEvals {σ : Type} (task : MetricTask σ) :
    List String → σ → List (Except String MetricEvaluation) × σ
  | [], j => ([], j)
  | m :: ms, j =>
    let r := task m j
    let rest := gatherEvals task ms r.2
    (r.1 :: rest.1, rest.2)

/-- The post-processing loop of the parallel branch: pair each metric with
its gathered outcome and convert a captured exception into that metric's
score-1 fallback. -/
def processParallel (metrics : List String)
    (evaluations : List (Except String MetricEvaluation)) :
    List (String × MetricEvaluation) :=
  (metrics.zip evaluations).map (fun p =>
    match p.2 with
    | Except.error e =>
      (p.1, ⟨1, "Error: " ++ e, none, [("error", e)], le_refl 1, by norm_num⟩)
    | Except.ok ev => (p.1, ev))

/-- The sequential branch: evaluate each metric in turn, converting a raised
fault into that metric's score-1 fallback. -/
def seqEvals {σ : Type} (task : MetricTask σ) :
    List String → σ → List (String × MetricEvaluation) × σ
  | [], j => ([], j)
  | m :: ms, j =>
    let r := task m j
    let entry : String × MetricEvaluation :=
      match r.1 with
      | Except.ok ev => (m, ev)
      | Except.error e =>
        (m, ⟨1, "Error: " ++ e, none, [("error", e)], le_refl 1, by norm_num⟩)
    let rest := seqEvals task ms r.2
    (entry :: rest.1, rest.2)

/-- The first of the five hard-coded keyword lookups
`metric_results["correctness"], ..., metric_results["verbosity"]` to raise
`KeyError` (argument evaluation order of the `EvaluationScores(...)` call). -/
def firstMissingMetric (d : List (String × MetricEvaluation)) : String :=
  ((defaultMetrics.find? (fun m => (pyDictGet d m).isNone)).getD "")

/-- `_evaluate_metrics_node`: run all metrics in the configured mode, then
construct `EvaluationScores` from the five hard-coded keys; a `KeyError`
there is caught by the node's handler, which appends
`f"Metrics evaluation error: {e}"` (where `str(KeyError(k))` is `'k'`). -/
def evaluate_metrics_node {σ : Type} (cfg : EvaluationConfig)
    (task : MetricTask σ) (s : EvaluationState) (j : σ) :
    EvaluationState × σ :=
  let _analysis_summary := format_analysis_for_metrics s.data_analysis_results
  let res :=
    if cfg.parallel_evaluation then
      let g := gatherEvals task cfg.metrics j
      (processParallel cfg.metrics g.1, g.2)
    else
      seqEvals task cfg.metrics j
  let metric_results := res.1
  match pyDictGet metric_results "correctness",
      pyDictGet metric_results "helpfulness",
      pyDictGet metric_results "complexity",
      pyDictGet metric_results "coherence",
      pyDictGet metric_results "verbosity" with
  | some c, some h, some x, some o, some v =>
    ({ s with evaluation_scores := some ⟨c, h, x, o, v⟩ }, res.2)
  | _, _, _, _, _ =>
    ({ s with errors := s.errors ++
        ["Metrics evaluation error: '" ++ firstMissingMetric metric_results ++ "'"] },
      res.2)

/-! ### `graph._output_node` (src/graph.py, lines 194–219) -/

/- Rendering of a JSON value used to model Python `str(...)` in
`_create_analysis_summary` (approximate repr; the pipeline only ever reaches
the empty-results branch). -/
mutual

def jsonRender : Json → String
  | Json.null => "None"
  | Json.bool b => if b then "True" else "False"
  | Json.num q => toString q.num
  | Json.str s => "'" ++ s ++ "'"
  | Json.arr xs => "[" ++ jsonRenderList xs ++ "]"
  | Json.obj kvs => "\x7b" ++ jsonRenderMembers kvs ++ "\x7d"

def jsonRenderList : List Json → String
  | [] => ""
  | [x] => jsonRender x
  | x :: xs => jsonRender x ++ ", " ++ jsonRenderList xs

def jsonRenderMembers : List (String × Json) → String
  | [] => ""
  | [(k, v)] => "'" ++ k ++ "': " ++ jsonRender v
  | (k, v) :: kvs => "'" ++ k ++ "': " ++ jsonRender v ++ ", " ++ jsonRenderMembers kvs

end

/-- `graph._create_analysis_summary` (src/graph.py, lines 246–258). -/
def create_analysis_summary (rs : List DataAnalysisResult) : String :=
  match rs with
  | [] => "No data analysis was performed."
  | _ =>
    String.intercalate "\n" (rs.map (fun r =>
      if r.success then
        "✓ " ++ r.analysis_type ++ ": "
          ++ (jsonRender (Json.obj r.results)).take 100 ++ "..."
      else
        "✗ " ++ r.analysis_type ++ ": Failed - "
          ++ (r.error_message.getD "None")))

/-- The error string appended when `_output_node`'s own `ValueError`
("No evaluation scores available") is caught by its handler. -/
def outputNodeErrMsg : String :=
  "Output formatting error: No evaluation scores available"

/-- The dict assembled by `_output_node` when scores exist: the keys in
construction order are `claim`, `scores`, `explanations`, `average_score`,
`data_analysis_summary`, `timestamp`, `errors`; `errors` is Python `None`
when the accumulated list is empty (empty list is falsy). -/
def finalOutputDict (s : EvaluationState) (es : EvaluationScores) :
    List (String × Json) :=
  [("claim", Json.str s.claim)]
  ++ es.to_dict
  ++ [("data_analysis_summary",
        Json.str (create_analysis_summary s.data_analysis_results)),
      ("timestamp", Json.str s.timestamp),
      ("errors",
        if s.errors = [] then Json.null
        else Json.arr (s.errors.map Json.str))]

/-- `_output_node`: with no scores, its `ValueError` is caught by its own
handler — the error is appended and `final_output` is left untouched. -/
def output_node (s : EvaluationState) : EvaluationState :=
  match s.evaluation_scores with
  | none => { s with errors := s.errors ++ [outputNodeErrMsg] }
  | some es => { s with final_output := some (finalOutputDict s es) }

/-! ### `graph.evaluate_claim` (src/graph.py, lines 260–306) -/

/-- The dict built by the `except` branch of `evaluate_claim`.  It is
returned only when the workflow invocation itself raises; every embedded
stage is total (each node catches its own faults), so the embedded pipeline
never takes this branch. -/
def workflow_error_output (claim msg : String) : List (String × Json) :=
  [("claim", Json.str claim),
   ("error", Json.str msg),
   ("scores", Json.obj
      [("correctness", Json.num 1), ("helpfulness", Json.num 1),
       ("complexity", Json.num 1), ("coherence", Json.num 1),
       ("verbosity", Json.num 1)]),
   ("explanations", Json.obj
      [("error", Json.str ("Workflow error: " ++ msg))]),
   ("average_score", Json.num 1)]

/-- `evaluate_claim(claim, dataset_summary=None, task_description=None)`:
build the initial state (`dataset_summary or ""`), run the four stages in
fixed order, and hand `final_state.final_output` to the caller. -/
def evaluate_claim {σ : Type} (cfg : EvaluationConfig) (task : MetricTask σ)
    (timestamp : String) (claim : String) (dataset_summary : Option String)
    (task_description : Option String) (j : σ) :
    Option (List (String × Json)) :=
  let s0 : EvaluationState :=
    { claim := claim
      dataset_summary := dataset_summary.getD ""
      task_description := task_description
      data_analysis_results := []
      evaluation_scores := none
      final_output := none
      timestamp := timestamp
      execution_time := none
      errors := [] }
  let s1 := start_node s0
  let s2 := data_analysis_node s1
  let s3 := (evaluate_metrics_node cfg task s2 j).1
  let s4 := output_node s3
  s4.final_output

/-! ### Helper lemmas -/

/-- The conversion both branches of `_evaluate_metrics_node` apply to a
metric's outcome: a delivered evaluation is kept, a raised fault becomes that
metric's independent score-1 fallback. -/
def processOutcome : Except String MetricEvaluation → MetricEvaluation
  | Except.ok ev => ev
  | Except.error e =>
    ⟨1, "Error: " ++ e, none, [("error", e)], le_refl 1, by norm_num⟩

/-- Python's `round(x, 2)`: round to two decimal places. -/
def round2 (q : ℚ) : ℚ := ((round (q * 100) : ℤ) : ℚ) / 100

/-- The evaluation produced by `evaluate_metric` when
`_parse_evaluation_response` found no braces in the judge response. -/
def parseErrorFallback (resp m : String) : MetricEvaluation :=
  ⟨1, "Error parsing response: " ++ noJsonFoundMsg, none,
    [("metric", m), ("raw_response", resp)], le_refl 1, by norm_num⟩

/-! Concrete fixtures used by witnesses and counterexamples. -/

/-- A fixed judge verdict (score 3). -/
def stubEval : MetricEvaluation := ⟨3, "stub", none, [], by norm_num, by norm_num⟩

/-- A deterministic node-level task delivering `stubEval` for every metric
(`σ = ℕ` advances per task invocation; it plays no role in the statements
that use this fixture). -/
def stubTask : MetricTask ℕ := fun _ n => (Except.ok stubEval, n + 1)

/-- A perfectly responsive judge backend for `_get_llm_response`: always a
well-formed score-5 response, ticking its call counter on every transport
invocation — one tick per language-model call. -/
def judgeBackend5 : String → ℕ → Except String String × ℕ :=
  fun _ n =>
    (Except.ok
      "\x7b\"score\": 5, \"rationale\": \"supported by positive correlation\"\x7d",
      n + 1)

/-- A state whose analysis stage reported `success=false` (no grounding
evidence). -/
def failedAnalysisState : EvaluationState :=
  ⟨"c", "d", none,
    [⟨"statistical_analysis", [], none, 0, false, some "sandbox unavailable"⟩],
    none, none, "t0", none, []⟩

/-- Scores `{5, 4, 3, 5, 4}` from the spec's worked example. -/
def exampleScores : EvaluationScores :=
  ⟨⟨5, "a", none, [], by norm_num, by norm_num⟩,
   ⟨4, "b", none, [], by norm_num, by norm_num⟩,
   ⟨3, "c", none, [], by norm_num, by norm_num⟩,
   ⟨5, "d", none, [], by norm_num, by norm_num⟩,
   ⟨4, "e", none, [], by norm_num, by norm_num⟩⟩

/-- The top-level keys of the dict `_output_node` actually builds. -/
def actualOutputKeys : List String :=
  ["claim", "scores", "explanations", "average_score",
   "data_analysis_summary", "timestamp", "errors"]

theorem pyDictGet_isSome {α : Type} (d : List (String × α)) (k : String) :
    (pyDictGet d k).isSome = true ↔ k ∈ d.map Prod.fst := by
  induction d with
  | nil => simp [pyDictGet]
  | cons p rest ih =>
    cases hr : pyDictGet rest k with
    | some v =>
      simp only [pyDictGet, hr, Option.isSome_some, List.map_cons, List.mem_cons, true_iff]
      exact Or.inr (ih.mp (by simp [hr]))
    | none =>
      simp only [pyDictGet, hr, List.map_cons, List.mem_cons]
      by_cases hk : p.1 = k
      · simp [hk]
      · simp only [hk, if_false, Option.isSome_none, Bool.false_eq_true, false_iff]
        intro hmem
        rcases hmem with h | h
        · exact hk h.symm
        · have := ih.mpr h
          simp [hr] at this

theorem seqEvals_keys {σ : Type} (task : MetricTask σ) (ms : List String) (j : σ) :
    (seqEvals task ms j).1.map Prod.fst = ms := by
  induction ms generalizing j with
  | nil => rfl
  | cons m ms ih =>
    cases hp : task m j with
    | mk r1 j2 =>
      cases r1 <;> simp [seqEvals, hp, ih]

theorem par_eq_seq {σ : Type} (task : MetricTask σ) (ms : List String) (j : σ) :
    (processParallel ms (gatherEvals task ms j).1, (gatherEvals task ms j).2)
      = seqEvals task ms j := by
  induction ms generalizing j with
  | nil => rfl
  | cons m ms ih =>
    cases hp : task m j with
    | mk r1 j2 =>
      have ih' := ih j2
      cases r1 <;>
        simp only [gatherEvals, processParallel, seqEvals, hp, List.zip_cons_cons,
          List.map_cons, Prod.mk.injEq, Prod.ext_iff] at ih' ⊢ <;>
        exact ⟨by rw [ih'.1], ih'.2⟩

theorem seqEvals_fst_of_det {σ : Type} (f : String → Except String MetricEvaluation)
    (upd : String → σ → σ) (ms : List String) (j : σ) :
    (seqEvals (fun m j => (f m, upd m j)) ms j).1
      = ms.map (fun m => (m, processOutcome (f m))) := by
  induction ms generalizing j with
  | nil => rfl
  | cons m ms ih =>
    cases hf : f m <;> simp [seqEvals, processOutcome, hf, ih]

/-- A task that never advances the threaded backend state leaves it
unchanged over any metric list. -/
theorem seqEvals_state_const {σ : Type} (task : MetricTask σ)
    (h : ∀ m j, (task m j).2 = j) (ms : List String) (j : σ) :
    (seqEvals task ms j).2 = j := by
  induction ms generalizing j with
  | nil => rfl
  | cons m ms ih =>
    cases hp : task m j with
    | mk r1 j2 =>
      have hj : j2 = j := by
        have hm := h m j
        rw [hp] at hm
        exact hm
      cases r1 <;> simp [seqEvals, hp, hj, ih]

/-- The real scorer, evaluated: the `format_messages` attribute is missing
from `PromptTemplate`, so every invocation returns its metric's score-1
fallback without consulting the backend oracle. -/
theorem scorerTask_eq {σ : Type}
    (oracle : String → σ → Except String String × σ) :
    scorerTask oracle = fun m j => (Except.ok (scorerResult m), j) := by
  funext m j
  by_cases hm : m ∈ metric_prompts_keys
  · simp [scorerTask, evaluate_metric_full, scorerResult, hm,
      (by decide : "format_messages" ∉ promptTemplate_attrs)]
  · simp [scorerTask, evaluate_metric_full, scorerResult, hm]

/-- Both evaluation modes of the node produce the same metric-result list and
the same backend state. -/
theorem node_results_eq_seq {σ : Type} (cfg : EvaluationConfig)
    (task : MetricTask σ) (j : σ) :
    (if cfg.parallel_evaluation then
        ((processParallel cfg.metrics (gatherEvals task cfg.metrics j).1),
          (gatherEvals task cfg.metrics j).2)
      else seqEvals task cfg.metrics j) = seqEvals task cfg.metrics j := by
  cases hpar : cfg.parallel_evaluation
  · simp
  · simp [par_eq_seq]

/-- Whenever every one of the five hard-coded metric names occurs in the
configured metric list, the node assembles an `EvaluationScores` value and
only replaces the `evaluation_scores` field of the state. -/
theorem node_scores_some {σ : Type} (cfg : EvaluationConfig)
    (task : MetricTask σ) (s : EvaluationState) (j : σ)
    (hall : ∀ m ∈ defaultMetrics, m ∈ cfg.metrics) :
    ∃ es : EvaluationScores,
      (evaluate_metrics_node cfg task s j).1
        = { s with evaluation_scores := some es } := by
  have hkey : ∀ m ∈ defaultMetrics,
      ∃ ev, pyDictGet (seqEvals task cfg.metrics j).1 m = some ev := by
    intro m hm
    have : (pyDictGet (seqEvals task cfg.metrics j).1 m).isSome = true := by
      rw [pyDictGet_isSome, seqEvals_keys]
      exact hall m hm
    exact Option.isSome_iff_exists.mp this
  obtain ⟨c, hc⟩ := hkey "correctness" (by simp [defaultMetrics])
  obtain ⟨h, hh⟩ := hkey "helpfulness" (by simp [defaultMetrics])
  obtain ⟨x, hx⟩ := hkey "complexity" (by simp [defaultMetrics])
  obtain ⟨o, ho⟩ := hkey "coherence" (by simp [defaultMetrics])
  obtain ⟨v, hv⟩ := hkey "verbosity" (by simp [defaultMetrics])
  refine ⟨⟨c, h, x, o, v⟩, ?_⟩
  unfold evaluate_metrics_node
  rw [node_results_eq_seq]
  dsimp only
  rw [hc, hh, hx, ho, hv]

/-- When one of the five hard-coded metric names is missing from the
configured list, the node's `KeyError` is caught: an error string is
appended and every other field of the state — in particular
`evaluation_scores` and `final_output` — is untouched. -/
theorem node_scores_fail {σ : Type} (cfg : EvaluationConfig)
    (task : MetricTask σ) (s : EvaluationState) (j : σ)
    (hmiss : ¬ ∀ m ∈ defaultMetrics, m ∈ cfg.metrics) :
    (evaluate_metrics_node cfg task s j).1
      = { s with errors := s.errors ++
          ["Metrics evaluation error: '"
            ++ firstMissingMetric (seqEvals task cfg.metrics j).1 ++ "'"] } := by
  unfold evaluate_metrics_node
  rw [node_results_eq_seq]
  dsimp only
  split
  · next c h x o v hc hh hx ho hv =>
    exfalso
    apply hmiss
    intro m hm
    rw [← seqEvals_keys task cfg.metrics j, ← pyDictGet_isSome]
    simp only [defaultMetrics, List.mem_cons, List.not_mem_nil, or_false] at hm
    rcases hm with rfl | rfl | rfl | rfl | rfl <;>
      simp [hc, hh, hx, ho, hv]
  · rfl

/-- `_output_node` on a state that has scores: the final dict is attached. -/
theorem output_node_some (s : EvaluationState) (es : EvaluationScores)
    (hs : s.evaluation_scores = some es) :
    output_node s = { s with final_output := some (finalOutputDict s es) } := by
  unfold output_node
  rw [hs]

/-- `_output_node` on a state without scores: its own `ValueError` is caught,
the error recorded, `final_output` untouched. -/
theorem output_node_none (s : EvaluationState)
    (hs : s.evaluation_scores = none) :
    output_node s = { s with errors := s.errors ++ [outputNodeErrMsg] } := by
  unfold output_node
  rw [hs]

/-- The output stage attaches a final dict exactly when scores exist or one
was already attached. -/
theorem output_node_fo_isSome (s : EvaluationState) :
    ((output_node s).final_output).isSome
      = (s.evaluation_scores.isSome || s.final_output.isSome) := by
  unfold output_node
  cases h : s.evaluation_scores <;> simp [h]

/-- The start node touches only `dataset_summary` and `errors`. -/
theorem start_node_fields (s : EvaluationState) :
    (start_node s).evaluation_scores = s.evaluation_scores
      ∧ (start_node s).final_output = s.final_output
      ∧ (start_node s).data_analysis_results = s.data_analysis_results := by
  unfold start_node
  split
  · exact ⟨rfl, rfl, rfl⟩
  · split
    · exact ⟨rfl, rfl, rfl⟩
    · exact ⟨rfl, rfl, rfl⟩

/-- The analysis node touches only `errors`. -/
theorem data_analysis_node_fields (s : EvaluationState) :
    (data_analysis_node s).evaluation_scores = s.evaluation_scores
      ∧ (data_analysis_node s).final_output = s.final_output
      ∧ (data_analysis_node s).data_analysis_results = s.data_analysis_results := by
  unfold data_analysis_node
  split
  · exact ⟨rfl, rfl, rfl⟩
  · exact ⟨rfl, rfl, rfl⟩

/-- pydantic's per-field bounds give bounds on the mean. -/
theorem get_average_score_bounds (es : EvaluationScores) :
    1 ≤ es.get_average_score ∧ es.get_average_score ≤ 5 := by
  have g1 : (1 : ℚ) ≤ (es.correctness.score : ℚ) := by
    exact_mod_cast es.correctness.score_ge_one
  have g2 : (1 : ℚ) ≤ (es.helpfulness.score : ℚ) := by
    exact_mod_cast es.helpfulness.score_ge_one
  have g3 : (1 : ℚ) ≤ (es.complexity.score : ℚ) := by
    exact_mod_cast es.complexity.score_ge_one
  have g4 : (1 : ℚ) ≤ (es.coherence.score : ℚ) := by
    exact_mod_cast es.coherence.score_ge_one
  have g5 : (1 : ℚ) ≤ (es.verbosity.score : ℚ) := by
    exact_mod_cast es.verbosity.score_ge_one
  have l1 : (es.correctness.score : ℚ) ≤ 5 := by
    exact_mod_cast es.correctness.score_le_five
  have l2 : (es.helpfulness.score : ℚ) ≤ 5 := by
    exact_mod_cast es.helpfulness.score_le_five
  have l3 : (es.complexity.score : ℚ) ≤ 5 := by
    exact_mod_cast es.complexity.score_le_five
  have l4 : (es.coherence.score : ℚ) ≤ 5 := by
    exact_mod_cast es.coherence.score_le_five
  have l5 : (es.verbosity.score : ℚ) ≤ 5 := by
    exact_mod_cast es.verbosity.score_le_five
  rw [EvaluationScores.get_average_score]
  constructor
  · rw [le_div_iff₀ (by norm_num : (0 : ℚ) < 5)]
    push_cast
    linarith
  · rw [div_le_iff₀ (by norm_num : (0 : ℚ) < 5)]
    push_cast
    linarith

/-! ### The claims -/

/-- C4 (code bug): called with the non-empty claim
`"Items with higher MRP tend to have higher sales."` and an empty dataset
summary, the START stage does **not** substitute the built-in default
summary: its own validation (`if not state.claim or not state.dataset_summary`)
raises first, the node's handler records the error, and the state moves on
with the summary still empty — the substitution branch is dead code. -/
theorem claim4_start_default_substitution :
    start_node
        ⟨"Items with higher MRP tend to have higher sales.", "", none, [],
          none, none, "t0", none, []⟩
      = ⟨"Items with higher MRP tend to have higher sales.", "", none, [],
          none, none, "t0", none, [startNodeErrMsg]⟩ := by
  rfl

/-- C9 (confirmed): `E2BClient` defines neither `tool` (read by the guard)
nor `analyze_claim` (called in the sandbox branch); evaluating the guard
raises `AttributeError`, the stage's failure boundary appends exactly one
error string, and `data_analysis_results` is unchanged (empty stays empty) —
sandbox-grounded evidence is never produced. -/
theorem claim9_analysis_always_fails (s : EvaluationState) :
    e2bclient_attrs.contains "tool" = false
      ∧ e2bclient_attrs.contains "analyze_claim" = false
      ∧ data_analysis_node s = { s with errors := s.errors ++ [dataAnalysisErrMsg] }
      ∧ (data_analysis_node s).data_analysis_results = s.data_analysis_results := by
  exact ⟨rfl, rfl, rfl, rfl⟩

/-- C10 (confirmed): every constructible `MetricEvaluation` has
`1 ≤ score ≤ 5`; constructing one from a judge-reported score of `7` raises
a validation error, which `evaluate_metric` converts into the score-1
fallback whose rationale names the failure — the out-of-range score is
neither clamped to 5 nor passed through. -/
theorem claim10_score_bounds :
    (∀ m : MetricEvaluation, 1 ≤ m.score ∧ m.score ≤ 5)
      ∧ pydanticBuild (Json.num 7) (Json.str "great") none []
          = Except.error scoreLeErrMsg
      ∧ (evaluate_metric
            (Except.ok "\x7b\"score\": 7, \"rationale\": \"great\"\x7d")
            "correctness").score = 1
      ∧ (evaluate_metric
            (Except.ok "\x7b\"score\": 7, \"rationale\": \"great\"\x7d")
            "correctness").rationale
          = "Error during evaluation: " ++ scoreLeErrMsg := by
  exact ⟨fun m => ⟨m.score_ge_one, m.score_le_five⟩, rfl, rfl, rfl⟩

/-- C6 (counterexample): the response `{"score": "4", "rationale": "ok"}`
decodes to an object that lacks a *numeric* score (its score is a JSON
string), yet the result is **not** the claimed score-1 fallback: the parser
checks only key presence, and pydantic's lenient `int` validation coerces
the string `"4"` to the score 4. -/
theorem claim6_counterexample :
    (evaluate_metric
        (Except.ok "\x7b\"score\": \"4\", \"rationale\": \"ok\"\x7d")
        "correctness").score = 4
      ∧ (evaluate_metric
          (Except.ok "\x7b\"score\": \"4\", \"rationale\": \"ok\"\x7d")
          "correctness").rationale = "ok" := by
  exact ⟨rfl, rfl⟩

/-- C6 (amended): the scorer extracts the span from the first `{` to the
last `}` of the raw response and strictly JSON-decodes it, tolerating
markdown code fences; if no braces are found, the JSON is malformed, or the
decoded object lacks a `score` or `rationale` **entry**, the result is a
score-1 fallback naming the failure (values are not type-checked at parse
time: a present score that is a numeric string is coerced at model
construction).  `"no json here"` yields the score-1 parsing-error fallback
and the markdown-fenced `{"score": 4, "rationale": "consistent with data"}`
parses to score 4. -/
theorem claim6_parse_and_fallback :
    ((evaluate_metric (Except.ok "no json here") "correctness").score = 1
      ∧ (evaluate_metric (Except.ok "no json here") "correctness").rationale
          = "Error parsing response: No JSON found in response")
    ∧ ((evaluate_metric
          (Except.ok
            "```json\n\x7b\"score\": 4, \"rationale\": \"consistent with data\"\x7d\n```")
          "correctness").score = 4
      ∧ (evaluate_metric
          (Except.ok
            "```json\n\x7b\"score\": 4, \"rationale\": \"consistent with data\"\x7d\n```")
          "correctness").rationale = "consistent with data")
    ∧ ((evaluate_metric (Except.ok "\x7b\"foo\": 1\x7d") "correctness").score = 1
      ∧ (evaluate_metric (Except.ok "\x7b\"foo\": 1\x7d") "correctness").rationale
          = "Error parsing response: " ++ missingFieldsMsg)
    ∧ ((evaluate_metric
          (Except.ok "\x7b\"score\": \"4\", \"rationale\": \"ok\"\x7d")
          "helpfulness").score = 4)
    ∧ (∀ (resp m : String),
        (resp.toList.contains lbrace && resp.toList.contains rbrace) = false →
          evaluate_metric (Except.ok resp) m = parseErrorFallback resp m) := by
  refine ⟨⟨rfl, rfl⟩, ⟨rfl, rfl⟩, ⟨rfl, rfl⟩, rfl, ?_⟩
  intro resp m h
  rw [Bool.and_eq_false_iff] at h
  unfold evaluate_metric parse_evaluation_response
  dsimp only
  rw [if_neg]
  · rfl
  · intro hc
    rcases h with h | h <;> rw [h] at hc <;> simp at hc

/-- Witness for the universally quantified clause of
`claim6_parse_and_fallback` at the brace-free response
`"plain text answer"`. -/
theorem claim6_parse_and_fallback_witness :
    (("plain text answer".toList.contains lbrace
        && "plain text answer".toList.contains rbrace) = false)
      ∧ evaluate_metric (Except.ok "plain text answer") "coherence"
          = parseErrorFallback "plain text answer" "coherence" := by
  exact ⟨by decide,
    claim6_parse_and_fallback.2.2.2.2 "plain text answer" "coherence" (by decide)⟩

set_option maxRecDepth 8192 in
/-- C3 (counterexample): on a state whose analysis reported `success=false`,
the stored rationales do **not** cite the absent analysis.  Driving the
node with the real scorer (`scorerTask`) over a perfectly responsive
score-5 backend: every metric stores the score-1 fallback whose rationale
names the prompt-construction failure (`format_messages`) — a string in
which `analysis` does not even occur — and the backend counter stays at 0
(the zero-calls conjunct of the claim holds, but for a reason unrelated to
any `success=false` short-circuit). -/
theorem claim3_counterexample :
    (evaluate_metrics_node defaultEvaluationConfig (scorerTask judgeBackend5)
        failedAnalysisState 0).2 = 0
      ∧ ((evaluate_metrics_node defaultEvaluationConfig
            (scorerTask judgeBackend5) failedAnalysisState 0).1.evaluation_scores.map
          (fun es => (es.correctness.score, es.correctness.rationale)))
        = some (1, "Error during evaluation: " ++ formatMessagesErrMsg)
      ∧ ¬ ("analysis".toList <:+:
            ("Error during evaluation: " ++ formatMessagesErrMsg).toList)
      ∧ failedAnalysisState.data_analysis_results.map DataAnalysisResult.success
        = [false] := by
  exact ⟨rfl, rfl, by decide, rfl⟩

/-- C3 (amended): the metric stage never inspects the analysis success flag,
and the scorer makes **zero** language-model calls on every state and under
every backend — not as a `success=false` short-circuit, but because the
prompt step of `evaluate_metric` (`PromptTemplate.format_messages`, which
does not exist) raises before `_get_llm_response` on every invocation.  All
five metrics therefore store the uniform score-1 fallback whose rationale
names that prompt failure, not the absent analysis. -/
theorem claim3_no_model_calls (σ : Type)
    (oracle : String → σ → Except String String × σ) (cfg : EvaluationConfig)
    (s : EvaluationState) (j : σ) :
    (evaluate_metrics_node cfg (scorerTask oracle) s j).2 = j
      ∧ (seqEvals (scorerTask oracle) cfg.metrics j).1
          = cfg.metrics.map (fun m => (m, scorerResult m))
      ∧ ((evaluate_metrics_node defaultEvaluationConfig (scorerTask oracle)
            s j).1).evaluation_scores
        = some ⟨evalMetricFallback formatMessagesErrMsg "correctness",
                evalMetricFallback formatMessagesErrMsg "helpfulness",
                evalMetricFallback formatMessagesErrMsg "complexity",
                evalMetricFallback formatMessagesErrMsg "coherence",
                evalMetricFallback formatMessagesErrMsg "verbosity"⟩ := by
  rw [scorerTask_eq]
  refine ⟨?_, ?_, ?_⟩
  · unfold evaluate_metrics_node
    rw [node_results_eq_seq]
    dsimp only
    split
    · exact seqEvals_state_const _ (fun m j => rfl) cfg.metrics j
    · exact seqEvals_state_const _ (fun m j => rfl) cfg.metrics j
  · exact seqEvals_fst_of_det (fun m => Except.ok (scorerResult m))
      (fun _ j => j) cfg.metrics j
  · rfl

/-- C7 (confirmed): the stored `average_score` is the plain arithmetic mean
of the five integer scores, and rounding that mean to two decimals is the
identity (a mean of five integers is a multiple of 1/5), so the field always
equals the 2-decimal-rounded mean; the example scores `{5, 4, 3, 5, 4}` give
exactly 4.2. -/
theorem claim7_average_is_rounded_mean :
    (∀ es : EvaluationScores,
        es.get_average_score = round2 es.get_average_score)
      ∧ exampleScores.get_average_score = 4.2
      ∧ round2 exampleScores.get_average_score = 4.2 := by
  have key : ∀ es : EvaluationScores,
      es.get_average_score = round2 es.get_average_score := by
    intro es
    rw [EvaluationScores.get_average_score, round2]
    set k : ℤ := es.correctness.score + es.helpfulness.score
      + es.complexity.score + es.coherence.score + es.verbosity.score with hk
    have h100 : ((k : ℚ) / 5) * 100 = ((20 * k : ℤ) : ℚ) := by
      push_cast
      ring
    rw [h100, round_intCast]
    push_cast
    ring
  refine ⟨key, ?_, ?_⟩
  · rw [EvaluationScores.get_average_score]
    norm_num [exampleScores]
  · rw [← key]
    rw [EvaluationScores.get_average_score]
    norm_num [exampleScores]

/-- C8 (confirmed): for every oracle, the concurrent mode
(`parallel_evaluation=true`) and the sequential mode produce the same node
result (metric map, state and backend effects); and for deterministic
per-metric responses the produced map pairs each metric with exactly its own
outcome — an `ok` verdict is kept and a fault becomes that metric's
independent score-1 fallback, never affecting the other entries. -/
theorem claim8_modes_agree :
    (∀ (σ : Type) (task : MetricTask σ) (ms : List String)
        (s : EvaluationState) (j : σ),
      evaluate_metrics_node ⟨ms, true⟩ task s j
        = evaluate_metrics_node ⟨ms, false⟩ task s j)
    ∧ (∀ (σ : Type) (f : String → Except String MetricEvaluation)
        (upd : String → σ → σ) (ms : List String) (j : σ),
      (seqEvals (fun m j => (f m, upd m j)) ms j).1
        = ms.map (fun m => (m, processOutcome (f m)))) := by
  constructor
  · intro σ task ms s j
    unfold evaluate_metrics_node
    rw [node_results_eq_seq ⟨ms, true⟩ task j, node_results_eq_seq ⟨ms, false⟩ task j]
  · intro σ f upd ms j
    exact seqEvals_fst_of_det f upd ms j

/-- C5 (counterexample): a concrete full run returns a report whose
top-level keys are **not** the six the claim lists — the dict built by
`_output_node` also carries a `timestamp` key. -/
theorem claim5_counterexample :
    ((evaluate_claim defaultEvaluationConfig stubTask "t0"
        "Items with higher MRP tend to have higher sales." (some "Retail data")
        none 0).map (fun r => r.map Prod.fst)) = some actualOutputKeys
      ∧ actualOutputKeys
        ≠ ["claim", "scores", "explanations", "average_score",
            "data_analysis_summary", "errors"] := by
  exact ⟨rfl, by decide⟩

/-- C5 (amended): on any state holding scores, the final dict's top-level
keys are exactly `claim`, `scores`, `explanations`, `average_score`,
`data_analysis_summary`, `timestamp`, `errors` — in that order — and the
`errors` entry is JSON null when no errors were accumulated and the array of
the accumulated strings otherwise; `data_analysis_summary` is always a
string. -/
theorem claim5_output_shape (c ds : String) (td : Option String)
    (rs : List DataAnalysisResult) (es : EvaluationScores)
    (fo : Option (List (String × Json))) (ts : String) (errs : List String) :
    (output_node ⟨c, ds, td, rs, some es, fo, ts, none, errs⟩).final_output
        = some (finalOutputDict ⟨c, ds, td, rs, some es, fo, ts, none, errs⟩ es)
      ∧ (finalOutputDict ⟨c, ds, td, rs, some es, fo, ts, none, errs⟩ es).map
          Prod.fst = actualOutputKeys
      ∧ List.lookup "errors"
          (finalOutputDict ⟨c, ds, td, rs, some es, fo, ts, none, errs⟩ es)
        = some (if errs = [] then Json.null else Json.arr (errs.map Json.str))
      ∧ List.lookup "data_analysis_summary"
          (finalOutputDict ⟨c, ds, td, rs, some es, fo, ts, none, errs⟩ es)
        = some (Json.str (create_analysis_summary rs)) := by
  exact ⟨rfl, rfl, rfl, rfl⟩

/-- C1 (counterexample): with a configuration whose metric list is empty, no
metric scores can be assembled; `evaluate_claim` then hands the caller
`None` — no minimal score-1 report is synthesized (the output stage catches
its own `ValueError`, so the `except` branch of `evaluate_claim` that would
build one never fires). -/
theorem claim1_counterexample :
    evaluate_claim ⟨[], true⟩ stubTask "t0"
        "Items with higher MRP tend to have higher sales." (some "Retail data")
        none 0
      = none := by
  rfl

/-- C1 (amended): the caller receives a report exactly when every one of the
five hard-coded metric names occurs in the configured metric list; when
scores cannot be assembled the caller receives an absent (`None`) report
rather than a synthesized minimal one. -/
theorem claim1_report_iff_metrics_configured (σ : Type) (cfg : EvaluationConfig)
    (task : MetricTask σ) (ts c : String) (ds td : Option String) (j : σ) :
    (evaluate_claim cfg task ts c ds td j).isSome = true
      ↔ ∀ m ∈ defaultMetrics, m ∈ cfg.metrics := by
  unfold evaluate_claim
  dsimp only
  set s2 := data_analysis_node (start_node
    ⟨c, ds.getD "", td, [], none, none, ts, none, []⟩) with hs2
  have hs2scores : s2.evaluation_scores = none := by
    rw [hs2, (data_analysis_node_fields _).1, (start_node_fields _).1]
  have hs2fo : s2.final_output = none := by
    rw [hs2, (data_analysis_node_fields _).2.1, (start_node_fields _).2.1]
  by_cases hall : ∀ m ∈ defaultMetrics, m ∈ cfg.metrics
  · rw [eq_true hall, iff_true]
    obtain ⟨es, hes⟩ := node_scores_some cfg task s2 j hall
    rw [hes, output_node_fo_isSome]
    simp
  · rw [eq_false hall, iff_false]
    rw [node_scores_fail cfg task s2 j hall, output_node_fo_isSome]
    simp [hs2scores, hs2fo]

/-- C2 (confirmed, guarded by the five metrics being configured — true of
the shipped configuration): for every claim, dataset summary, task
description, backend behaviour and evaluation mode, the returned report's
`scores` entry holds exactly the five metric keys in order, each an integer
in `[1, 5]`, and its `average_score` lies in `[1, 5]`. -/
theorem claim2_report_schema (σ : Type) (cfg : EvaluationConfig)
    (task : MetricTask σ) (ts c : String) (ds td : Option String) (j : σ)
    (hall : ∀ m ∈ defaultMetrics, m ∈ cfg.metrics) :
    ∃ r : List (String × Json),
      evaluate_claim cfg task ts c ds td j = some r
      ∧ (∃ sc : List (String × Json),
          List.lookup "scores" r = some (Json.obj sc)
          ∧ sc.map Prod.fst = defaultMetrics
          ∧ ∀ p ∈ sc, ∃ n : ℤ, p.2 = Json.num (n : ℚ) ∧ 1 ≤ n ∧ n ≤ 5)
      ∧ (∃ q : ℚ,
          List.lookup "average_score" r = some (Json.num q)
          ∧ 1 ≤ q ∧ q ≤ 5) := by
  unfold evaluate_claim
  dsimp only
  set s2 := data_analysis_node (start_node
    ⟨c, ds.getD "", td, [], none, none, ts, none, []⟩) with hs2
  obtain ⟨es, hes⟩ := node_scores_some cfg task s2 j hall
  rw [hes, output_node_some _ es rfl]
  refine ⟨finalOutputDict { s2 with evaluation_scores := some es } es, rfl,
    ⟨[("correctness", Json.num (es.correctness.score : ℚ)),
      ("helpfulness", Json.num (es.helpfulness.score : ℚ)),
      ("complexity", Json.num (es.complexity.score : ℚ)),
      ("coherence", Json.num (es.coherence.score : ℚ)),
      ("verbosity", Json.num (es.verbosity.score : ℚ))], rfl, rfl, ?_⟩,
    ⟨es.get_average_score, rfl,
      (get_average_score_bounds es).1, (get_average_score_bounds es).2⟩⟩
  intro p hp
  simp only [List.mem_cons, List.not_mem_nil, or_false] at hp
  rcases hp with rfl | rfl | rfl | rfl | rfl
  · exact ⟨es.correctness.score, rfl,
      es.correctness.score_ge_one, es.correctness.score_le_five⟩
  · exact ⟨es.helpfulness.score, rfl,
      es.helpfulness.score_ge_one, es.helpfulness.score_le_five⟩
  · exact ⟨es.complexity.score, rfl,
      es.complexity.score_ge_one, es.complexity.score_le_five⟩
  · exact ⟨es.coherence.score, rfl,
      es.coherence.score_ge_one, es.coherence.score_le_five⟩
  · exact ⟨es.verbosity.score, rfl,
      es.verbosity.score_ge_one, es.verbosity.score_le_five⟩

/-- Witness for `claim2_report_schema` at the shipped configuration, a
concrete claim and a concrete deterministic backend. -/
theorem claim2_report_schema_witness :
    (∀ m ∈ defaultMetrics, m ∈ defaultEvaluationConfig.metrics)
      ∧ (∃ r : List (String × Json),
          evaluate_claim defaultEvaluationConfig stubTask "t0" "c" (some "d")
              none 0 = some r
          ∧ (∃ sc : List (String × Json),
              List.lookup "scores" r = some (Json.obj sc)
              ∧ sc.map Prod.fst = defaultMetrics
              ∧ ∀ p ∈ sc, ∃ n : ℤ, p.2 = Json.num (n : ℚ) ∧ 1 ≤ n ∧ n ≤ 5)
          ∧ (∃ q : ℚ,
              List.lookup "average_score" r = some (Json.num q)
              ∧ 1 ≤ q ∧ q ≤ 5)) := by
  have h : ∀ m ∈ defaultMetrics, m ∈ defaultEvaluationConfig.metrics :=
    fun m hm => hm
  exact ⟨h, claim2_report_schema ℕ defaultEvaluationConfig stubTask "t0" "c"
    (some "d") none 0 h⟩

end InsightEval
